import Mathlib

/-!
Verification of the content-moderation cloud function
(`src/moderation-agent/main.py`) against its specification.

The Python function is shallowly embedded:
* JSON values (`JVal`) model Python objects produced by `json.loads` and
  the dict literals built by the scanners; Python truthiness is `pyTruthy`.
* External calls (the generative-model oracle, the HTTP fetch, base64
  decoding) are outcomes supplied by an `Env`; each scanner also returns
  the list of external `Effect`s it performed, so "the oracle is never
  invoked" is a statement about that list.
* Exceptions are modelled with `Except String`, the string being `str(e)`.
* `json.loads` is modelled by the executable recursive-descent reader
  `jsonParse` (objects, arrays, strings, integers, booleans, null).
-/

set_option maxRecDepth 100000

/-- JSON values, as produced by `json.loads` and consumed by `jsonify`. -/
inductive JVal where
  | null : JVal
  | bool : Bool → JVal
  | num : Int → JVal
  | str : String → JVal
  | arr : List JVal → JVal
  | obj : List (String × JVal) → JVal

/-- Python truthiness of a JSON value (`if x:` on the result of `dict.get`). -/
def pyTruthy : JVal → Bool
  | JVal.null => false
  | JVal.bool b => b
  | JVal.num n => n != 0
  | JVal.str s => s != ""
  | JVal.arr xs => !xs.isEmpty
  | JVal.obj kvs => !kvs.isEmpty

/-- Python truthiness of an optional string argument (`if media_b64:`),
where the field may be absent (`None`) or present but empty. -/
def optTruthy : Option String → Bool
  | none => false
  | some s => s != ""

/-- `d.get(k, dflt)` on a Python dict decoded from JSON.  Later duplicate
keys shadow earlier ones (as in `json.loads`), hence the reversal. -/
def dget (d : List (String × JVal)) (k : String) (dflt : JVal) : JVal :=
  (d.reverse.lookup k).getD dflt

/-- The keys of a decoded dict, in insertion order. -/
def dictKeys (d : List (String × JVal)) : List String :=
  d.map Prod.fst

/-- The character `{` (kept out of string literals). -/
def lbrace : Char := Char.ofNat 123

/-- The character `}` (kept out of string literals). -/
def rbrace : Char := Char.ofNat 125

/-- Drop leading JSON whitespace. -/
def skipWs : List Char → List Char
  | [] => []
  | c :: cs =>
    if c = ' ' ∨ c = '\n' ∨ c = '\t' ∨ c = '\r' then skipWs cs else c :: cs

/-- Read the remainder of a JSON string literal (the opening quote is
already consumed); the accumulator holds the read characters reversed. -/
def parseStringAux : List Char → List Char → Option (String × List Char)
  | [], _ => none
  | c :: cs, acc =>
    if c = '"' then some (String.mk acc.reverse, cs)
    else if c = '\\' then
      match cs with
      | [] => none
      | d :: ds =>
        if d = '"' then parseStringAux ds ('"' :: acc)
        else if d = '\\' then parseStringAux ds ('\\' :: acc)
        else if d = '/' then parseStringAux ds ('/' :: acc)
        else if d = 'n' then parseStringAux ds ('\n' :: acc)
        else if d = 't' then parseStringAux ds ('\t' :: acc)
        else if d = 'r' then parseStringAux ds ('\r' :: acc)
        else none
    else parseStringAux cs (c :: acc)

/-- Split a longest digit prefix off a character list. -/
def takeDigits : List Char → List Char × List Char
  | [] => ([], [])
  | c :: cs =>
    if c.isDigit then
      let (ds, r) := takeDigits cs
      (c :: ds, r)
    else ([], c :: cs)

/-- Numeric value of a digit list. -/
def natFromDigits (ds : List Char) : Nat :=
  ds.foldl (fun n c => 10 * n + (c.toNat - 48)) 0

/-- Read a JSON integer literal. -/
def parseIntVal (cs : List Char) : Option (JVal × List Char) :=
  match cs with
  | '-' :: rest =>
    match takeDigits rest with
    | ([], _) => none
    | (ds, r) => some (JVal.num (-(natFromDigits ds : Int)), r)
  | _ =>
    match takeDigits cs with
    | ([], _) => none
    | (ds, r) => some (JVal.num (natFromDigits ds), r)

mutual

/-- Read one JSON value; the fuel bounds the nesting depth. -/
def parseVal : Nat → List Char → Option (JVal × List Char)
  | 0, _ => none
  | Nat.succ fuel, cs =>
    match skipWs cs with
    | [] => none
    | c :: rest =>
      if c = lbrace then
        match skipWs rest with
        | [] => none
        | d :: r2 =>
          if d = rbrace then some (JVal.obj [], r2)
          else
            match parseMembers fuel (d :: r2) [] with
            | some (kvs, r) => some (JVal.obj kvs, r)
            | none => none
      else if c = '[' then
        match skipWs rest with
        | [] => none
        | d :: r2 =>
          if d = ']' then some (JVal.arr [], r2)
          else
            match parseElems fuel (d :: r2) [] with
            | some (xs, r) => some (JVal.arr xs, r)
            | none => none
      else if c = '"' then
        match parseStringAux rest [] with
        | some (s, r) => some (JVal.str s, r)
        | none => none
      else
        match c :: rest with
        | 't' :: 'r' :: 'u' :: 'e' :: r => some (JVal.bool true, r)
        | 'f' :: 'a' :: 'l' :: 's' :: 'e' :: r => some (JVal.bool false, r)
        | 'n' :: 'u' :: 'l' :: 'l' :: r => some (JVal.null, r)
        | l => parseIntVal l

/-- Read the members of a JSON object (at least one; after `\x7b`). -/
def parseMembers : Nat → List Char → List (String × JVal) →
    Option (List (String × JVal) × List Char)
  | 0, _, _ => none
  | Nat.succ fuel, cs, acc =>
    match skipWs cs with
    | [] => none
    | c :: rest =>
      if c = '"' then
        match parseStringAux rest [] with
        | none => none
        | some (key, r1) =>
          match skipWs r1 with
          | [] => none
          | c2 :: r2 =>
            if c2 = ':' then
              match parseVal fuel r2 with
              | none => none
              | some (v, r3) =>
                match skipWs r3 with
                | [] => none
                | c3 :: r4 =>
                  if c3 = ',' then parseMembers fuel r4 ((key, v) :: acc)
                  else if c3 = rbrace then some (((key, v) :: acc).reverse, r4)
                  else none
            else none
      else none

/-- Read the elements of a JSON array (at least one; after `[`). -/
def parseElems : Nat → List Char → List JVal →
    Option (List JVal × List Char)
  | 0, _, _ => none
  | Nat.succ fuel, cs, acc =>
    match parseVal fuel cs with
    | none => none
    | some (v, r1) =>
      match skipWs r1 with
      | [] => none
      | c2 :: r2 =>
        if c2 = ',' then parseElems fuel r2 (v :: acc)
        else if c2 = ']' then some ((v :: acc).reverse, r2)
        else none

end

/-- `json.loads`: read one value and require only whitespace after it. -/
def jsonParse (s : String) : Option JVal :=
  match parseVal (s.data.length + 1) s.data with
  | some (v, rest) => if skipWs rest = [] then some v else none
  | none => none

/-- `TEXT_MODEL` from `main.py`. -/
def TEXT_MODEL : String := "gemini-2.0-flash-exp"

/-- `VISION_MODEL` from `main.py`. -/
def VISION_MODEL : String := "gemini-2.0-flash-exp"

/-- The f-string prompt built by `_scan_text` (the submitted text is
spliced between the fixed prefix and suffix). -/
def textScanPrompt (text : String) : String :=
  "Role: Strict Content Safety Agent for Wandern - a family-friendly walking/exploration app.\nTask: Analyze the following text for App Store compliance.\n\nSTRICT CONTENT POLICY - FLAG ANY OF THESE:\n\n1. NUDITY/SEXUAL CONTENT:\n   - Any references to nudity, pornography, or explicit sexual content\n   - Shirtless photos of men are NOT allowed (except in clear beach/pool context)\n   - Bikini tops and swimwear are OK in beach contexts\n   - Any sexualized content involving minors (ZERO TOLERANCE)\n\n2. AGE RESTRICTIONS:\n   - Content referencing children under 13 participating in app activities\n   - Content that could endanger minors\n   - Predatory behavior of any kind\n\n3. VIOLENCE/SAFETY:\n   - Hate Speech / Harassment / Bullying\n   - Violence, gore, or disturbing content\n   - Dangerous / Illegal Acts / Self-harm\n   - Threats or intimidation\n\n4. OTHER:\n   - Severe Profanity (mild PG-13 is okay)\n   - Personal info sharing (phone numbers, addresses)\n   - Spam / Advertising\n   - Illegal drug use or sales\n\nInput Text: \"" ++ text ++ "\"\n\nOutput ONLY valid JSON:\n\x7b\"is_safe\": true/false, \"flag_reason\": \"short explanation if flagged, else null\", \"category\": \"nudity|age|violence|spam|safe\"\x7d"

/-- The fixed prompt sent by `_scan_image` alongside the image part. -/
def imageScanPrompt : String :=
  "Role: Strict Content Safety Agent for Wandern - a family-friendly walking app.\nAnalyze this image for App Store compliance.\n\nSTRICT CONTENT POLICY - FLAG IF IMAGE CONTAINS:\n\n1. NUDITY/SEXUAL:\n   - Any nudity (full or partial)\n   - Shirtless men (FLAG unless clearly beach/pool setting)\n   - Sexually suggestive poses or content\n   - Bikini tops and swimwear are OK in beach/pool contexts only\n\n2. AGE CONCERNS:\n   - Children who appear under 13 years old (FLAG - app is 13+)\n   - If a person looks under 18 but over 13, flag for review\n   - Any content sexualizing minors (ZERO TOLERANCE - immediate flag)\n\n3. VIOLENCE/SAFETY:\n   - Violence, gore, blood, or disturbing imagery\n   - Weapons being used threateningly\n   - Hate symbols, Nazi imagery, offensive gestures\n   - Dangerous activities that could cause harm\n\n4. PRIVACY:\n   - Visible personal information (addresses, credit cards, IDs)\n   - License plates, house numbers in identifiable context\n\nOutput ONLY valid JSON:\n\x7b\"is_safe\": true/false, \"flag_reason\": \"specific explanation if flagged, else null\", \"category\": \"nudity|age|violence|privacy|safe\", \"detected_minors\": true/false\x7d"

/-- An HTTP response to the media fetch (`httpx.Client.get`). -/
structure HttpResponse where
  status : Nat
  content : List Nat

/-- `response.is_success`: a 2xx transfer status; `raise_for_status`
raises for everything else. -/
def HttpResponse.isSuccess (r : HttpResponse) : Bool :=
  200 ≤ r.status && r.status < 300

/-- Outcomes of the external calls the function makes.  Each field gives,
for each possible argument, either the call's result or the message of the
exception it raises. -/
structure Env where
  textGen : String → Except String String
  visionGen : String → String → List Nat → Except String String
  httpGet : String → Except String HttpResponse
  b64decode : String → Except String (List Nat)

/-- One external call performed during a scan, with its arguments. -/
inductive Effect where
  | oracleText : String → Effect
  | oracleVision : String → String → List Nat → Effect
  | httpGet : (url : String) → (timeout : Nat) → Effect
  deriving DecidableEq

/-- The result of one scanner: the verdict dict or the raised exception,
paired with the external calls that were performed. -/
def ScanResult : Type :=
  Except String (List (String × JVal)) × List Effect

/-- Whether `pat` is a prefix of the second list. -/
def isPrefixList : List Char → List Char → Bool
  | [], _ => true
  | _ :: _, [] => false
  | p :: ps, c :: cs => p == c && isPrefixList ps cs

/-- Whether `pat` occurs anywhere in the second list. -/
def containsList (pat : List Char) : List Char → Bool
  | [] => pat.isEmpty
  | c :: cs => isPrefixList pat (c :: cs) || containsList pat cs

/-- Whether `pat` occurs in `s` (`pat in s` on Python strings). -/
def containsSub (s pat : String) : Bool :=
  containsList pat.data s.data

/-- `str.replace` on character lists: replace leftmost non-overlapping
occurrences of a non-empty `pat`; the fuel is the input length, and each
step consumes at least one character. -/
def replaceListAux (pat repl : List Char) : Nat → List Char → List Char
  | _, [] => []
  | 0, s => s
  | Nat.succ fuel, c :: cs =>
    if pat ≠ [] ∧ isPrefixList pat (c :: cs) then
      repl ++ replaceListAux pat repl fuel (List.drop (pat.length - 1) cs)
    else
      c :: replaceListAux pat repl fuel cs

/-- `s.replace(pat, repl)` (an empty pattern leaves `s` unchanged; the
patterns used by the code are never empty). -/
def pyReplace (s pat repl : String) : String :=
  String.mk (replaceListAux pat.data repl.data s.data.length s.data)

/-- A character `str.strip()` removes. -/
def isPySpace (c : Char) : Bool :=
  c == ' ' || c == '\n' || c == '\t' || c == '\r' ||
    c == Char.ofNat 11 || c == Char.ofNat 12

/-- `s.strip()`: drop whitespace from both ends. -/
def pyStrip (s : String) : String :=
  String.mk (((s.data.dropWhile isPySpace).reverse.dropWhile isPySpace).reverse)

/-- `s.endswith(post)`. -/
def pyEndsWith (s post : String) : Bool :=
  isPrefixList post.data.reverse s.data.reverse

/-- `response.text.replace('```json', '').replace('```', '').strip()`. -/
def cleanResponse (s : String) : String :=
  pyStrip (pyReplace (pyReplace s "```json" "") "```" "")

/-- The verdict dict built from a parsed oracle payload
(lines 164–172 and 237–244 of `main.py`, identical in both scanners):
`is_safe = data.get("is_safe", False)`, `reason = data.get("flag_reason")`,
status is `"approved" if is_safe else "flagged"`. -/
def mkVerdict (is_safe : JVal) (reason : JVal) (model : String) :
    List (String × JVal) :=
  [("is_safe", is_safe),
   ("moderation_status",
     JVal.str (if pyTruthy is_safe then "approved" else "flagged")),
   ("flag_reason", reason),
   ("model_used", JVal.str model)]

/-- Shared normalization of a raw oracle response: strip fences, run
`json.loads`, then read the fields off the dict.  A failed parse raises
`json.JSONDecodeError`; a non-dict payload raises when `.get` is called. -/
def normalizeVerdict (model : String) (respText : String) :
    Except String (List (String × JVal)) :=
  match jsonParse (cleanResponse respText) with
  | some (JVal.obj data) =>
      Except.ok (mkVerdict (dget data "is_safe" (JVal.bool false))
        (dget data "flag_reason" JVal.null) model)
  | some _ => Except.error "AttributeError: object has no attribute get"
  | none => Except.error "json.decoder.JSONDecodeError"

/-- `_scan_text`: build the prompt, call the text model, normalize.
Exceptions are logged and re-raised (`raise e`). -/
def scanText (env : Env) (text : String) : ScanResult :=
  match env.textGen (textScanPrompt text) with
  | Except.error e => (Except.error e, [Effect.oracleText (textScanPrompt text)])
  | Except.ok t =>
      (normalizeVerdict TEXT_MODEL t, [Effect.oracleText (textScanPrompt text)])

/-- The fixed verdict `_scan_image` returns when neither source is given. -/
def noImageVerdict : List (String × JVal) :=
  [("is_safe", JVal.bool true),
   ("moderation_status", JVal.str "approved"),
   ("flag_reason", JVal.str "No image provided"),
   ("model_used", JVal.str VISION_MODEL)]

/-- The tail of `_scan_image` once image bytes are resolved: build the
image part (`mime_type` is always `image/jpeg`), call the vision model,
normalize. -/
def scanImageBytes (env : Env) (image_data : List Nat) : ScanResult :=
  match env.visionGen imageScanPrompt "image/jpeg" image_data with
  | Except.error e =>
      (Except.error e, [Effect.oracleVision imageScanPrompt "image/jpeg" image_data])
  | Except.ok t =>
      (normalizeVerdict VISION_MODEL t,
       [Effect.oracleVision imageScanPrompt "image/jpeg" image_data])

/-- `_scan_image`: resolve image bytes (base64 blob first, else URL fetch
with `timeout=30` and `raise_for_status`, else the fixed no-image
verdict), then scan them.  Exceptions are re-raised. -/
def scanImage (env : Env) (media_url media_b64 : Option String) : ScanResult :=
  if optTruthy media_b64 then
    match env.b64decode (media_b64.getD "") with
    | Except.error e => (Except.error e, [])
    | Except.ok image_data => scanImageBytes env image_data
  else if optTruthy media_url then
    match env.httpGet (media_url.getD "") with
    | Except.error e => (Except.error e, [Effect.httpGet (media_url.getD "") 30])
    | Except.ok resp =>
      if resp.isSuccess then
        ((scanImageBytes env resp.content).1,
         Effect.httpGet (media_url.getD "") 30 :: (scanImageBytes env resp.content).2)
      else
        (Except.error "httpx.HTTPStatusError",
         [Effect.httpGet (media_url.getD "") 30])
  else
    (Except.ok noImageVerdict, [])

/-- `media_url.endswith('.jpg') or media_url.endswith('.png')`. -/
def looksLikeImageUrl (url : String) : Bool :=
  pyEndsWith url ".jpg" || pyEndsWith url ".png"

/-- The fixed verdict for video without an image-looking source. -/
def videoNoFrameVerdict : List (String × JVal) :=
  [("is_safe", JVal.bool true),
   ("moderation_status", JVal.str "approved"),
   ("flag_reason",
     JVal.str "Video moderation requires frame extraction - manual review suggested"),
   ("model_used", JVal.str "none (video - needs frame extraction)")]

/-- The verdict `_scan_video_frame` synthesizes when its body raises. -/
def videoErrorVerdict (e : String) : List (String × JVal) :=
  [("is_safe", JVal.bool true),
   ("moderation_status", JVal.str "approved"),
   ("flag_reason", JVal.str ("Video scan error: " ++ e)),
   ("model_used", JVal.str "error")]

/-- The `try` body of `_scan_video_frame`: delegate a base64 blob to the
image scanner; delegate an image-looking URL to the image scanner;
otherwise the fixed no-frame verdict. -/
def videoInner (env : Env) (media_url media_b64 : Option String) : ScanResult :=
  if optTruthy media_b64 then
    scanImage env none media_b64
  else if optTruthy media_url && looksLikeImageUrl (media_url.getD "") then
    scanImage env media_url none
  else
    (Except.ok videoNoFrameVerdict, [])

/-- `_scan_video_frame`: the body with its `except` clause, which turns
any exception into an approved verdict carrying the error text. -/
def scanVideoFrame (env : Env) (media_url media_b64 : Option String) : ScanResult :=
  match videoInner env media_url media_b64 with
  | (Except.ok d, eff) => (Except.ok d, eff)
  | (Except.error e, eff) => (Except.ok (videoErrorVerdict e), eff)

/-- The fixed verdict for `content_type == "audio"`. -/
def audioVerdict : List (String × JVal) :=
  [("is_safe", JVal.bool true),
   ("moderation_status", JVal.str "approved"),
   ("flag_reason", JVal.null),
   ("model_used", JVal.str "none (audio - manual review suggested)")]

/-- The verdict synthesized by the top-level fail-open handler. -/
def agentErrorVerdict (e : String) : List (String × JVal) :=
  [("is_safe", JVal.bool true),
   ("moderation_status", JVal.str "approved"),
   ("flag_reason", JVal.str ("Agent Error: " ++ e)),
   ("model_used", JVal.str "error")]

/-- A parsed request body: `content` defaults to `""`, the media fields
to `None`, `content_type` to `"text"`. -/
structure ModerationRequest where
  content : String
  media_url : Option String
  media_b64 : Option String
  content_type : String

/-- The routing block of `moderate_content` (lines 92–109): one branch
per declared content type, text as the default. -/
def dispatch (env : Env) (req : ModerationRequest) : ScanResult :=
  if req.content_type == "text" then scanText env req.content
  else if req.content_type == "image" then
    scanImage env req.media_url req.media_b64
  else if req.content_type == "video" then
    scanVideoFrame env req.media_url req.media_b64
  else if req.content_type == "audio" then (Except.ok audioVerdict, [])
  else scanText env req.content

/-- An HTTP response of the cloud function: the jsonified body (or the
empty preflight body) and the status code. -/
structure HttpResult where
  body : JVal
  status : Nat

/-- The `try`/`except` around the routing block: a scan result becomes a
200 response, an exception becomes the 200 fail-open response. -/
def wrapResult : ScanResult → HttpResult × List Effect
  | (Except.ok d, eff) => (⟨JVal.obj d, 200⟩, eff)
  | (Except.error e, eff) => (⟨JVal.obj (agentErrorVerdict e), 200⟩, eff)

/-- `moderate_content`: preflight short-circuit, the `text_model` check,
body parsing (`none` models a missing/falsy JSON body), then dispatch
under the fail-open handler. -/
def moderate_content (method : String) (text_model_ready : Bool) (env : Env)
    (body : Option ModerationRequest) : HttpResult × List Effect :=
  if method == "OPTIONS" then (⟨JVal.str "", 204⟩, [])
  else if !text_model_ready then
    (⟨JVal.obj [("error", JVal.str "Configuration error: Models not initialized")], 500⟩, [])
  else
    match body with
    | none => (⟨JVal.obj [("error", JVal.str "Invalid JSON")], 400⟩, [])
    | some req => wrapResult (dispatch env req)

/-- The module-level initialization (lines 24–36): with no API key neither
model is constructed; with a key the two `genai.GenerativeModel` calls run
in order inside one `try`, so a failure of the first leaves both unset
while a failure of the second leaves `text_model` set and `vision_model`
unset.  Returns (text_model set, vision_model set). -/
def initModels (apiKey : Option String)
    (mkTextModel mkVisionModel : Except String Unit) : Bool × Bool :=
  match apiKey with
  | none => (false, false)
  | some _ =>
    match mkTextModel with
    | Except.error _ => (false, false)
    | Except.ok _ =>
      match mkVisionModel with
      | Except.error _ => (true, false)
      | Except.ok _ => (true, true)

/-- Reading a named field out of a response body. -/
def bodyField (r : HttpResult) (k : String) : JVal :=
  match r.body with
  | JVal.obj d => dget d k JVal.null
  | _ => JVal.null

/-- The invariant relating `moderation_status` to `is_safe` in a verdict
dict: the status is the truthiness-derived string. -/
def verdictConsistent (d : List (String × JVal)) : Prop :=
  dget d "moderation_status" JVal.null =
    JVal.str (if pyTruthy (dget d "is_safe" (JVal.bool false))
              then "approved" else "flagged")

/-- The verdict built from any parsed payload satisfies the status
invariant by construction. -/
theorem mkVerdict_consistent (s r : JVal) (m : String) :
    verdictConsistent (mkVerdict s r m) := rfl

/-- Every verdict the normalizer returns satisfies the status invariant. -/
theorem normalizeVerdict_ok_consistent (m t : String) (d : List (String × JVal))
    (h : normalizeVerdict m t = Except.ok d) : verdictConsistent d := by
  unfold normalizeVerdict at h
  cases hp : jsonParse (cleanResponse t) with
  | none => rw [hp] at h; exact Except.noConfusion h
  | some v =>
    rw [hp] at h
    cases v with
    | obj data =>
      injection h with h'
      subst h'
      exact mkVerdict_consistent _ _ _
    | null => exact Except.noConfusion h
    | bool b => exact Except.noConfusion h
    | num n => exact Except.noConfusion h
    | str s => exact Except.noConfusion h
    | arr xs => exact Except.noConfusion h

/-- Every verdict `_scan_text` returns satisfies the status invariant. -/
theorem scanText_ok_consistent (env : Env) (text : String) (d : List (String × JVal))
    (h : (scanText env text).1 = Except.ok d) : verdictConsistent d := by
  unfold scanText at h
  cases hg : env.textGen (textScanPrompt text) with
  | error e => rw [hg] at h; exact Except.noConfusion h
  | ok t => rw [hg] at h; exact normalizeVerdict_ok_consistent _ _ _ h

/-- Every verdict the vision-scan tail returns satisfies the invariant. -/
theorem scanImageBytes_ok_consistent (env : Env) (bs : List Nat) (d : List (String × JVal))
    (h : (scanImageBytes env bs).1 = Except.ok d) : verdictConsistent d := by
  unfold scanImageBytes at h
  cases hg : env.visionGen imageScanPrompt "image/jpeg" bs with
  | error e => rw [hg] at h; exact Except.noConfusion h
  | ok t => rw [hg] at h; exact normalizeVerdict_ok_consistent _ _ _ h

/-- Every verdict `_scan_image` returns satisfies the status invariant. -/
theorem scanImage_ok_consistent (env : Env) (u b : Option String) (d : List (String × JVal))
    (h : (scanImage env u b).1 = Except.ok d) : verdictConsistent d := by
  unfold scanImage at h
  by_cases hb : optTruthy b = true
  · rw [if_pos hb] at h
    cases hd : env.b64decode (b.getD "") with
    | error e => rw [hd] at h; exact Except.noConfusion h
    | ok bytes => rw [hd] at h; exact scanImageBytes_ok_consistent env bytes d h
  · rw [if_neg hb] at h
    by_cases hu : optTruthy u = true
    · rw [if_pos hu] at h
      cases hg : env.httpGet (u.getD "") with
      | error e => rw [hg] at h; exact Except.noConfusion h
      | ok resp =>
        rw [hg] at h
        have h2 : (if resp.isSuccess = true then
            ((scanImageBytes env resp.content).1,
             Effect.httpGet (u.getD "") 30 :: (scanImageBytes env resp.content).2)
          else
            (Except.error "httpx.HTTPStatusError",
             [Effect.httpGet (u.getD "") 30])).1 = Except.ok d := h
        by_cases hs : resp.isSuccess = true
        · rw [if_pos hs] at h2
          exact scanImageBytes_ok_consistent env resp.content d h2
        · rw [if_neg hs] at h2; exact Except.noConfusion h2
    · rw [if_neg hu] at h
      injection h with h'
      subst h'
      rfl

/-- Every verdict the video `try` body returns satisfies the invariant. -/
theorem videoInner_ok_consistent (env : Env) (u b : Option String) (d : List (String × JVal))
    (h : (videoInner env u b).1 = Except.ok d) : verdictConsistent d := by
  unfold videoInner at h
  by_cases hb : optTruthy b = true
  · rw [if_pos hb] at h; exact scanImage_ok_consistent _ _ _ _ h
  · rw [if_neg hb] at h
    by_cases hu : (optTruthy u && looksLikeImageUrl (u.getD "")) = true
    · rw [if_pos hu] at h; exact scanImage_ok_consistent _ _ _ _ h
    · rw [if_neg hu] at h
      injection h with h'
      subst h'
      rfl

/-- Every verdict `_scan_video_frame` returns satisfies the invariant. -/
theorem scanVideoFrame_ok_consistent (env : Env) (u b : Option String) (d : List (String × JVal))
    (h : (scanVideoFrame env u b).1 = Except.ok d) : verdictConsistent d := by
  unfold scanVideoFrame at h
  cases hv : videoInner env u b with
  | mk res eff =>
    rw [hv] at h
    cases res with
    | ok d' =>
      injection h with h'
      subst h'
      exact videoInner_ok_consistent env u b _ (by rw [hv])
    | error e =>
      injection h with h'
      subst h'
      rfl

/-- Every verdict the routing block returns satisfies the invariant. -/
theorem dispatch_ok_consistent (env : Env) (req : ModerationRequest) (d : List (String × JVal))
    (h : (dispatch env req).1 = Except.ok d) : verdictConsistent d := by
  unfold dispatch at h
  by_cases h1 : (req.content_type == "text") = true
  · rw [if_pos h1] at h; exact scanText_ok_consistent _ _ _ h
  · rw [if_neg h1] at h
    by_cases h2 : (req.content_type == "image") = true
    · rw [if_pos h2] at h; exact scanImage_ok_consistent _ _ _ _ h
    · rw [if_neg h2] at h
      by_cases h3 : (req.content_type == "video") = true
      · rw [if_pos h3] at h; exact scanVideoFrame_ok_consistent _ _ _ _ h
      · rw [if_neg h3] at h
        by_cases h4 : (req.content_type == "audio") = true
        · rw [if_pos h4] at h
          injection h with h'
          subst h'
          rfl
        · rw [if_neg h4] at h; exact scanText_ok_consistent _ _ _ h

/-- The fail-open wrapper preserves the invariant: its body is either the
scanner's dict (consistent by hypothesis) or the agent-error dict. -/
theorem wrapResult_body_consistent (r : Except String (List (String × JVal)) × List Effect)
    (d : List (String × JVal))
    (hok : ∀ d', r.1 = Except.ok d' → verdictConsistent d')
    (hb : (wrapResult r).1.body = JVal.obj d) : verdictConsistent d := by
  obtain ⟨res, eff⟩ := r
  cases res with
  | ok d' =>
    injection hb with h'
    subst h'
    exact hok _ rfl
  | error e =>
    injection hb with h'
    subst h'
    rfl

/-- A request declaring text content. -/
def reqText : ModerationRequest := ⟨"hi", none, none, "text"⟩

/-- An environment whose text oracle answers with a safe JSON payload and
whose other external calls fail. -/
def envSafeText : Env :=
  { textGen := fun _ => Except.ok "\x7b\"is_safe\": true, \"flag_reason\": null\x7d"
  , visionGen := fun _ _ _ => Except.error "vision model unavailable"
  , httpGet := fun _ => Except.error "ConnectError: connection refused"
  , b64decode := fun _ => Except.error "binascii.Error: Invalid base64-encoded string" }

/-- An environment whose text oracle answers with a payload whose
`is_safe` field is JSON `null`. -/
def envNullSafe : Env :=
  { envSafeText with textGen := fun _ => Except.ok "\x7b\"is_safe\": null\x7d" }

/-- An environment whose text oracle raises. -/
def envTextDown : Env :=
  { envSafeText with textGen := fun _ => Except.error "ReadTimeout" }

/-- C1: for every non-preflight request routed to a scanner (any declared
content type other than audio, so text, image, video, or an unrecognized
value), if the selected scanner raises an exception `e`, the function
returns HTTP 200 with the fail-open verdict: `is_safe = true`,
`moderation_status = "approved"`, `flag_reason = "Agent Error: " ++ e`
(hence containing "Agent Error"), and `model_used = "error"`. -/
theorem c1_scanner_error_fail_open (method : String) (env : Env)
    (req : ModerationRequest) (e : String)
    (hm : (method == "OPTIONS") = false) (_ha : req.content_type ≠ "audio")
    (hd : (dispatch env req).1 = Except.error e) :
    (moderate_content method true env (some req)).1.status = 200 ∧
    (moderate_content method true env (some req)).1.body =
      JVal.obj (agentErrorVerdict e) ∧
    dget (agentErrorVerdict e) "is_safe" JVal.null = JVal.bool true ∧
    dget (agentErrorVerdict e) "moderation_status" JVal.null =
      JVal.str "approved" ∧
    dget (agentErrorVerdict e) "flag_reason" JVal.null =
      JVal.str ("Agent Error: " ++ e) ∧
    isPrefixList ("Agent Error").data (("Agent Error: " ++ e)).data = true ∧
    dget (agentErrorVerdict e) "model_used" JVal.null = JVal.str "error" := by
  have hmc : moderate_content method true env (some req) =
      wrapResult (dispatch env req) := by
    unfold moderate_content
    rw [if_neg (by simp [hm] : ¬((method == "OPTIONS") = true))]
    rw [if_neg (by decide : ¬((!true) = true))]
  have hw : wrapResult (dispatch env req) =
      (⟨JVal.obj (agentErrorVerdict e), 200⟩, (dispatch env req).2) := by
    cases hdp : dispatch env req with
    | mk res eff =>
      rw [hdp] at hd
      cases res with
      | ok d' => exact Except.noConfusion hd
      | error e' =>
        injection hd with h'
        subst h'
        rfl
  rw [hmc, hw]
  exact ⟨rfl, rfl, rfl, rfl, rfl, rfl, rfl⟩

/-- C1 witness: the theorem at a concrete request and a text oracle that
raises `ReadTimeout`. -/
theorem c1_witness :
    (moderate_content "POST" true envTextDown (some reqText)).1.status = 200 ∧
    (moderate_content "POST" true envTextDown (some reqText)).1.body =
      JVal.obj (agentErrorVerdict "ReadTimeout") ∧
    dget (agentErrorVerdict "ReadTimeout") "is_safe" JVal.null = JVal.bool true ∧
    dget (agentErrorVerdict "ReadTimeout") "moderation_status" JVal.null =
      JVal.str "approved" ∧
    dget (agentErrorVerdict "ReadTimeout") "flag_reason" JVal.null =
      JVal.str ("Agent Error: " ++ "ReadTimeout") ∧
    isPrefixList ("Agent Error").data (("Agent Error: " ++ "ReadTimeout")).data = true ∧
    dget (agentErrorVerdict "ReadTimeout") "model_used" JVal.null = JVal.str "error" :=
  c1_scanner_error_fail_open "POST" envTextDown reqText "ReadTimeout"
    rfl (by decide) rfl

/-- C2 (amended): on every 200 response of any path, `moderation_status`
is the pure function of `is_safe` given by Python truthiness: "approved"
when `is_safe` is truthy, "flagged" otherwise.  In particular, whenever
the `is_safe` field is a boolean, the status is "flagged" iff that
boolean is false.  The claim's unconditional iff with `is_safe = false`
fails when the oracle payload carries a non-boolean `is_safe` (see the
counterexample). -/
theorem c2_status_function_of_is_safe (method : String) (ready : Bool)
    (env : Env) (body : Option ModerationRequest) (d : List (String × JVal))
    (h200 : (moderate_content method ready env body).1.status = 200)
    (hb : (moderate_content method ready env body).1.body = JVal.obj d) :
    verdictConsistent d ∧
      ∀ bsafe : Bool, dget d "is_safe" (JVal.bool false) = JVal.bool bsafe →
        (dget d "moderation_status" JVal.null = JVal.str "flagged" ↔
          bsafe = false) := by
  have hcons : verdictConsistent d := by
    unfold moderate_content at h200 hb
    by_cases hm : (method == "OPTIONS") = true
    · rw [if_pos hm] at hb
      exact JVal.noConfusion hb
    · rw [if_neg hm] at h200 hb
      cases ready with
      | false =>
        rw [if_pos (by decide : (!false) = true)] at h200
        exact absurd h200 (by decide)
      | true =>
        rw [if_neg (by decide : ¬((!true) = true))] at h200 hb
        cases body with
        | none =>
          have h400 : (400 : Nat) = 200 := h200
          exact absurd h400 (by decide)
        | some req =>
          exact wrapResult_body_consistent _ d
            (fun d' h' => dispatch_ok_consistent env req d' h') hb
  refine ⟨hcons, ?_⟩
  intro bsafe hbv
  have hc2 : dget d "moderation_status" JVal.null =
      JVal.str (if pyTruthy (JVal.bool bsafe) then "approved" else "flagged") := by
    unfold verdictConsistent at hcons
    rw [hbv] at hcons
    exact hcons
  cases bsafe with
  | true =>
    constructor
    · intro hflag
      rw [hc2] at hflag
      injection hflag with h''
      exact absurd h'' (by decide)
    · intro hfalse
      exact absurd hfalse (by decide)
  | false =>
    exact ⟨fun _ => rfl, fun _ => hc2⟩

/-- C2 counterexample: with the oracle answering a payload whose
`is_safe` is JSON `null`, the text path yields a verdict whose
`moderation_status` is "flagged" while its `is_safe` field is `null`,
not the boolean `false`, so the claimed iff is violated. -/
theorem c2_counterexample :
    bodyField (moderate_content "POST" true envNullSafe (some reqText)).1
        "moderation_status" = JVal.str "flagged" ∧
      bodyField (moderate_content "POST" true envNullSafe (some reqText)).1
        "is_safe" ≠ JVal.bool false := by
  constructor
  · rfl
  · intro hcl
    exact JVal.noConfusion ((rfl :
      bodyField (moderate_content "POST" true envNullSafe (some reqText)).1
        "is_safe" = JVal.null).symm.trans hcl)

/-- C2 witness: the amended theorem applied to a concrete 200 response. -/
theorem c2_witness :
    verdictConsistent (mkVerdict (JVal.bool true) JVal.null TEXT_MODEL) :=
  (c2_status_function_of_is_safe "POST" true envSafeText (some reqText)
    (mkVerdict (JVal.bool true) JVal.null TEXT_MODEL) rfl rfl).1

/-- C3: a request whose declared content type is outside
text/image/video/audio produces exactly the same response (and the same
external calls) as the same request declared as `"text"`, because the
default routing branch invokes the text scanner on `content`. -/
theorem c3_unrecognized_type_is_text (method : String) (ready : Bool)
    (env : Env) (req : ModerationRequest)
    (h : req.content_type ∉ (["text", "image", "video", "audio"] : List String)) :
    moderate_content method ready env (some req) =
      moderate_content method ready env
        (some { req with content_type := "text" }) ∧
    dispatch env req = scanText env req.content := by
  have h1 : req.content_type ≠ "text" := fun hh => h (by simp [hh])
  have h2 : req.content_type ≠ "image" := fun hh => h (by simp [hh])
  have h3 : req.content_type ≠ "video" := fun hh => h (by simp [hh])
  have h4 : req.content_type ≠ "audio" := fun hh => h (by simp [hh])
  have hdisp : dispatch env req = scanText env req.content := by
    unfold dispatch
    rw [if_neg (by simp [h1]), if_neg (by simp [h2]), if_neg (by simp [h3]),
      if_neg (by simp [h4])]
  have hd2 : dispatch env { req with content_type := "text" } =
      scanText env req.content := by
    unfold dispatch
    rw [if_pos (by rfl)]
  refine ⟨?_, hdisp⟩
  simp only [moderate_content]
  rw [hdisp, hd2]

/-- C3 witness: a request declared as `"Image"` (a case variant outside
the enum) is handled exactly like the same request declared `"text"`. -/
theorem c3_witness :
    moderate_content "POST" true envSafeText (some ⟨"hello", none, none, "Image"⟩) =
      moderate_content "POST" true envSafeText (some ⟨"hello", none, none, "text"⟩) ∧
    dispatch envSafeText ⟨"hello", none, none, "Image"⟩ =
      scanText envSafeText "hello" :=
  c3_unrecognized_type_is_text "POST" true envSafeText
    ⟨"hello", none, none, "Image"⟩ (by decide)

/-- The fence-wrapped safe oracle output from the spec's example. -/
def fencedSafeExample : String :=
  "```json\n\x7b\"is_safe\": true, \"flag_reason\": null\x7d\n```"

/-- C4: normalization of oracle output.  Whenever the response text,
after stripping the fence markers and surrounding whitespace, parses as a
JSON object, the verdict is built from `is_safe` (default `false` when
absent) and `flag_reason` (absent means `null`); when the cleaned text
does not parse, the normalizer raises instead of defaulting to safe; and
the concrete fence-wrapped `\x7b"is_safe": true, "flag_reason": null\x7d`
normalizes to an approved verdict with `is_safe = true` and a null
`flag_reason`. -/
theorem c4_normalization (m t : String) :
    (∀ kvs, jsonParse (cleanResponse t) = some (JVal.obj kvs) →
      normalizeVerdict m t =
        Except.ok (mkVerdict (dget kvs "is_safe" (JVal.bool false))
          (dget kvs "flag_reason" JVal.null) m)) ∧
    (jsonParse (cleanResponse t) = none →
      normalizeVerdict m t = Except.error "json.decoder.JSONDecodeError") ∧
    (normalizeVerdict m fencedSafeExample =
        Except.ok (mkVerdict (JVal.bool true) JVal.null m) ∧
      dget (mkVerdict (JVal.bool true) JVal.null m) "is_safe" JVal.null =
        JVal.bool true ∧
      dget (mkVerdict (JVal.bool true) JVal.null m) "moderation_status" JVal.null =
        JVal.str "approved" ∧
      dget (mkVerdict (JVal.bool true) JVal.null m) "flag_reason" JVal.null =
        JVal.null) := by
  refine ⟨?_, ?_, rfl, rfl, rfl, rfl⟩
  · intro kvs hp
    unfold normalizeVerdict
    rw [hp]
  · intro hp
    unfold normalizeVerdict
    rw [hp]

/-- C4 witness: the theorem at the fence-wrapped example (parse success)
and at a non-JSON response (parse failure). -/
theorem c4_witness :
    normalizeVerdict TEXT_MODEL fencedSafeExample =
      Except.ok (mkVerdict
        (dget [("is_safe", JVal.bool true), ("flag_reason", JVal.null)]
          "is_safe" (JVal.bool false))
        (dget [("is_safe", JVal.bool true), ("flag_reason", JVal.null)]
          "flag_reason" JVal.null) TEXT_MODEL) ∧
    normalizeVerdict TEXT_MODEL "oops, not a payload" =
      Except.error "json.decoder.JSONDecodeError" :=
  ⟨(c4_normalization TEXT_MODEL fencedSafeExample).1
      [("is_safe", JVal.bool true), ("flag_reason", JVal.null)] rfl,
   (c4_normalization TEXT_MODEL "oops, not a payload").2.1 rfl⟩

/-- An oracle payload that is safe yet carries a non-null reason. -/
def approvedWithReasonExample : String :=
  "\x7b\"is_safe\": true, \"flag_reason\": \"swimwear in beach context\"\x7d"

/-- The parsed form of `approvedWithReasonExample`. -/
def reasonKvs : List (String × JVal) :=
  [("is_safe", JVal.bool true),
   ("flag_reason", JVal.str "swimwear in beach context")]

/-- C10: for every successfully parsed oracle payload, `flag_reason` is
passed through to the verdict unchanged regardless of `is_safe`; in
particular a truthy `is_safe` yields `moderation_status = "approved"`
while keeping whatever `flag_reason` the payload carried. -/
theorem c10_flag_reason_passthrough (m t : String) (kvs : List (String × JVal))
    (hp : jsonParse (cleanResponse t) = some (JVal.obj kvs)) :
    normalizeVerdict m t =
      Except.ok (mkVerdict (dget kvs "is_safe" (JVal.bool false))
        (dget kvs "flag_reason" JVal.null) m) ∧
    dget (mkVerdict (dget kvs "is_safe" (JVal.bool false))
        (dget kvs "flag_reason" JVal.null) m) "flag_reason" JVal.null =
      dget kvs "flag_reason" JVal.null ∧
    (pyTruthy (dget kvs "is_safe" (JVal.bool false)) = true →
      dget (mkVerdict (dget kvs "is_safe" (JVal.bool false))
          (dget kvs "flag_reason" JVal.null) m) "moderation_status" JVal.null =
        JVal.str "approved") := by
  refine ⟨?_, rfl, ?_⟩
  · unfold normalizeVerdict
    rw [hp]
  · intro htr
    have hms : dget (mkVerdict (dget kvs "is_safe" (JVal.bool false))
        (dget kvs "flag_reason" JVal.null) m) "moderation_status" JVal.null =
        JVal.str (if pyTruthy (dget kvs "is_safe" (JVal.bool false))
          then "approved" else "flagged") := rfl
    rw [hms, if_pos htr]

/-- C10 witness: a payload with `is_safe = true` and a non-null
`flag_reason` is approved and keeps that reason. -/
theorem c10_witness :
    normalizeVerdict TEXT_MODEL approvedWithReasonExample =
      Except.ok (mkVerdict (dget reasonKvs "is_safe" (JVal.bool false))
        (dget reasonKvs "flag_reason" JVal.null) TEXT_MODEL) ∧
    dget (mkVerdict (dget reasonKvs "is_safe" (JVal.bool false))
        (dget reasonKvs "flag_reason" JVal.null) TEXT_MODEL)
        "flag_reason" JVal.null = JVal.str "swimwear in beach context" ∧
    dget (mkVerdict (dget reasonKvs "is_safe" (JVal.bool false))
        (dget reasonKvs "flag_reason" JVal.null) TEXT_MODEL)
        "moderation_status" JVal.null = JVal.str "approved" := by
  have h := c10_flag_reason_passthrough TEXT_MODEL approvedWithReasonExample
    reasonKvs rfl
  exact ⟨h.1, h.2.1, h.2.2 rfl⟩

/-- The vision-scan tail only ever calls the vision oracle: it performs
no HTTP fetch. -/
theorem scanImageBytes_no_http (env : Env) (bs : List Nat) :
    ∀ url t, Effect.httpGet url t ∉ (scanImageBytes env bs).2 := by
  intro url t hmem
  unfold scanImageBytes at hmem
  cases hg : env.visionGen imageScanPrompt "image/jpeg" bs with
  | error e =>
    rw [hg] at hmem
    have hm2 : Effect.httpGet url t ∈
        [Effect.oracleVision imageScanPrompt "image/jpeg" bs] := hmem
    simp at hm2
  | ok t' =>
    rw [hg] at hmem
    have hm2 : Effect.httpGet url t ∈
        [Effect.oracleVision imageScanPrompt "image/jpeg" bs] := hmem
    simp at hm2

/-- C5: the image scanner resolves its bytes from exactly one source in
priority order.  (1) With a truthy `media_b64` the blob is decoded
(decode failures propagate, decoded bytes go to the oracle), `media_url`
is ignored, and no HTTP fetch happens.  (2) With no truthy blob and a
truthy `media_url` the URL is fetched with timeout 30, a fetch exception
propagates, and a non-2xx status raises `raise_for_status`'s error.
(3) With neither, the fixed "No image provided" verdict is returned with
no external call at all. -/
theorem c5_image_source_priority (env : Env) (u b : Option String) :
    (optTruthy b = true →
      scanImage env u b = scanImage env none b ∧
      (∀ e, env.b64decode (b.getD "") = Except.error e →
        (scanImage env u b).1 = Except.error e) ∧
      (∀ bs, env.b64decode (b.getD "") = Except.ok bs →
        scanImage env u b = scanImageBytes env bs) ∧
      (∀ url t, Effect.httpGet url t ∉ (scanImage env u b).2)) ∧
    (optTruthy b = false → optTruthy u = true →
      Effect.httpGet (u.getD "") 30 ∈ (scanImage env u b).2 ∧
      (∀ e, env.httpGet (u.getD "") = Except.error e →
        (scanImage env u b).1 = Except.error e) ∧
      (∀ resp, env.httpGet (u.getD "") = Except.ok resp →
        resp.isSuccess = false →
        (scanImage env u b).1 = Except.error "httpx.HTTPStatusError")) ∧
    (optTruthy b = false → optTruthy u = false →
      scanImage env u b = (Except.ok noImageVerdict, [])) := by
  refine ⟨?_, ?_, ?_⟩
  · intro hb
    have heqb : scanImage env u b =
        (match env.b64decode (b.getD "") with
         | Except.error e => (Except.error e, [])
         | Except.ok image_data => scanImageBytes env image_data) := by
      unfold scanImage
      rw [if_pos hb]
    refine ⟨?_, ?_, ?_, ?_⟩
    · unfold scanImage
      rw [if_pos hb, if_pos hb]
    · intro e he
      rw [heqb, he]
    · intro bs hbs
      rw [heqb, hbs]
    · intro url t hmem
      rw [heqb] at hmem
      cases hd : env.b64decode (b.getD "") with
      | error e =>
        rw [hd] at hmem
        exact (List.not_mem_nil _) hmem
      | ok bs =>
        rw [hd] at hmem
        exact scanImageBytes_no_http env bs url t hmem
  · intro hb hu
    refine ⟨?_, ?_, ?_⟩
    · cases hg : env.httpGet (u.getD "") with
      | error e =>
        have heq : scanImage env u b =
            (Except.error e, [Effect.httpGet (u.getD "") 30]) := by
          unfold scanImage
          rw [if_neg (by simp [hb]), if_pos hu, hg]
        rw [heq]
        exact List.mem_singleton_self _
      | ok resp =>
        have heq : scanImage env u b =
            (if resp.isSuccess = true then
              ((scanImageBytes env resp.content).1,
               Effect.httpGet (u.getD "") 30 :: (scanImageBytes env resp.content).2)
            else
              (Except.error "httpx.HTTPStatusError",
               [Effect.httpGet (u.getD "") 30])) := by
          unfold scanImage
          rw [if_neg (by simp [hb]), if_pos hu, hg]
        rw [heq]
        by_cases hs : resp.isSuccess = true
        · rw [if_pos hs]
          exact List.mem_cons_self _ _
        · rw [if_neg hs]
          exact List.mem_singleton_self _
    · intro e hg
      have heq : scanImage env u b =
          (Except.error e, [Effect.httpGet (u.getD "") 30]) := by
        unfold scanImage
        rw [if_neg (by simp [hb]), if_pos hu, hg]
      rw [heq]
    · intro resp hg hs
      have heq : scanImage env u b =
          (if resp.isSuccess = true then
            ((scanImageBytes env resp.content).1,
             Effect.httpGet (u.getD "") 30 :: (scanImageBytes env resp.content).2)
          else
            (Except.error "httpx.HTTPStatusError",
             [Effect.httpGet (u.getD "") 30])) := by
        unfold scanImage
        rw [if_neg (by simp [hb]), if_pos hu, hg]
      rw [heq, if_neg (by simp [hs])]
  · intro hb hu
    unfold scanImage
    rw [if_neg (by simp [hb]), if_neg (by simp [hu])]

/-- An environment for exercising the image and video paths: the vision
oracle answers safely, a `.png` URL fetches with status 200, any other
URL answers 404, and only the blob `"AAAA"` decodes. -/
def envImage : Env :=
  { textGen := fun _ => Except.error "text oracle down"
  , visionGen := fun _ _ _ => Except.ok
      "\x7b\"is_safe\": true, \"flag_reason\": null, \"category\": \"safe\", \"detected_minors\": false\x7d"
  , httpGet := fun url =>
      if url == "http://example.com/big.png" then Except.ok ⟨200, [137, 80, 78, 71]⟩
      else Except.ok ⟨404, []⟩
  , b64decode := fun s =>
      if s == "AAAA" then Except.ok [0, 0, 0] else Except.error "binascii.Error" }

/-- C5 witness: the theorem exercised on all three source branches at
concrete inputs. -/
theorem c5_witness :
    scanImage envImage (some "http://example.com/big.png") (some "AAAA") =
      scanImage envImage none (some "AAAA") ∧
    scanImage envImage (some "http://example.com/big.png") (some "AAAA") =
      scanImageBytes envImage [0, 0, 0] ∧
    Effect.httpGet "http://example.com/missing.jpg" 30 ∈
      (scanImage envImage (some "http://example.com/missing.jpg") none).2 ∧
    (scanImage envImage (some "http://example.com/missing.jpg") none).1 =
      Except.error "httpx.HTTPStatusError" ∧
    scanImage envImage none none = (Except.ok noImageVerdict, []) := by
  refine ⟨?_, ?_, ?_, ?_, ?_⟩
  · exact ((c5_image_source_priority envImage
      (some "http://example.com/big.png") (some "AAAA")).1 rfl).1
  · exact ((c5_image_source_priority envImage
      (some "http://example.com/big.png") (some "AAAA")).1 rfl).2.2.1 [0, 0, 0] rfl
  · exact ((c5_image_source_priority envImage
      (some "http://example.com/missing.jpg") none).2.1 rfl rfl).1
  · exact ((c5_image_source_priority envImage
      (some "http://example.com/missing.jpg") none).2.1 rfl rfl).2.2 ⟨404, []⟩ rfl rfl
  · exact (c5_image_source_priority envImage none none).2.2 rfl rfl

/-- C6: video routing on a request with no (truthy) `media_b64`.  A
`media_url` ending in `.jpg` or `.png` is delegated to the image scanner
with that URL (same external calls; a successful image verdict is
returned unchanged).  A `media_url` ending in a non-image suffix — or an
absent one — yields the fixed "frame extraction" approved verdict with
`model_used = "none (video - needs frame extraction)"`, with no oracle
call and no network access at all, so no exception can arise from an
unreachable URL. -/
theorem c6_video_routing (env : Env) (u b : Option String) :
    (optTruthy b = false → optTruthy u = true →
      looksLikeImageUrl (u.getD "") = true →
      (scanVideoFrame env u b).2 = (scanImage env u none).2 ∧
      (∀ d, (scanImage env u none).1 = Except.ok d →
        scanVideoFrame env u b = (Except.ok d, (scanImage env u none).2))) ∧
    (optTruthy b = false →
      (optTruthy u = false ∨ looksLikeImageUrl (u.getD "") = false) →
      scanVideoFrame env u b = (Except.ok videoNoFrameVerdict, [])) := by
  constructor
  · intro hb hu himg
    have hinner : videoInner env u b = scanImage env u none := by
      unfold videoInner
      rw [if_neg (by simp [hb]), if_pos (by simp [hu, himg])]
    have hsv : scanVideoFrame env u b =
        (match scanImage env u none with
         | (Except.ok d, eff) => (Except.ok d, eff)
         | (Except.error e, eff) => (Except.ok (videoErrorVerdict e), eff)) := by
      unfold scanVideoFrame
      rw [hinner]
    constructor
    · rw [hsv]
      cases hs : scanImage env u none with
      | mk res eff => cases res <;> rfl
    · intro d hok
      rw [hsv]
      cases hs : scanImage env u none with
      | mk res eff =>
        rw [hs] at hok
        cases res with
        | ok d' =>
          injection hok with h'
          subst h'
          rfl
        | error e => exact Except.noConfusion hok
  · intro hb hor
    have hinner : videoInner env u b = (Except.ok videoNoFrameVerdict, []) := by
      unfold videoInner
      rw [if_neg (by simp [hb]),
        if_neg (by rcases hor with h | h <;> simp [h])]
    unfold scanVideoFrame
    rw [hinner]

/-- C6 witness: an image-suffixed URL is delegated to the image scanner
and its verdict returned; an `.mp4` URL gets the fixed no-frame verdict
with no external call. -/
theorem c6_witness :
    (scanVideoFrame envImage (some "http://example.com/big.png") none).2 =
      (scanImage envImage (some "http://example.com/big.png") none).2 ∧
    scanVideoFrame envImage (some "http://example.com/big.png") none =
      (Except.ok (mkVerdict (JVal.bool true) JVal.null VISION_MODEL),
       (scanImage envImage (some "http://example.com/big.png") none).2) ∧
    scanVideoFrame envImage (some "http://example.com/clip.mp4") none =
      (Except.ok videoNoFrameVerdict, []) := by
  refine ⟨?_, ?_, ?_⟩
  · exact ((c6_video_routing envImage (some "http://example.com/big.png") none).1
      rfl rfl rfl).1
  · exact ((c6_video_routing envImage (some "http://example.com/big.png") none).1
      rfl rfl rfl).2 (mkVerdict (JVal.bool true) JVal.null VISION_MODEL) rfl
  · exact (c6_video_routing envImage (some "http://example.com/clip.mp4") none).2
      rfl (Or.inr rfl)

/-- C7: the video scanner never propagates an exception: it always
returns a verdict, and whenever its `try` body raises `e` the returned
verdict is approved with `is_safe = true`, a `flag_reason` annotated with
the cause, and `model_used = "error"`. -/
theorem c7_video_never_raises (env : Env) (u b : Option String) :
    (∃ d, (scanVideoFrame env u b).1 = Except.ok d) ∧
    (∀ e, (videoInner env u b).1 = Except.error e →
      (scanVideoFrame env u b).1 = Except.ok (videoErrorVerdict e) ∧
      dget (videoErrorVerdict e) "is_safe" JVal.null = JVal.bool true ∧
      dget (videoErrorVerdict e) "moderation_status" JVal.null =
        JVal.str "approved" ∧
      dget (videoErrorVerdict e) "flag_reason" JVal.null =
        JVal.str ("Video scan error: " ++ e) ∧
      dget (videoErrorVerdict e) "model_used" JVal.null = JVal.str "error") := by
  constructor
  · unfold scanVideoFrame
    cases hv : videoInner env u b with
    | mk res eff =>
      cases res with
      | ok d => exact ⟨d, rfl⟩
      | error e => exact ⟨videoErrorVerdict e, rfl⟩
  · intro e he
    have heq : (scanVideoFrame env u b).1 = Except.ok (videoErrorVerdict e) := by
      unfold scanVideoFrame
      cases hv : videoInner env u b with
      | mk res eff =>
        rw [hv] at he
        cases res with
        | ok d => exact Except.noConfusion he
        | error e' =>
          injection he with h'
          subst h'
          rfl
    exact ⟨heq, rfl, rfl, rfl, rfl⟩

/-- C7 witness: a video request whose delegated image scan raises on
base64 decoding still returns an approved verdict annotated with the
error. -/
theorem c7_witness :
    (scanVideoFrame envImage none (some "NOT64")).1 =
      Except.ok (videoErrorVerdict "binascii.Error") ∧
    dget (videoErrorVerdict "binascii.Error") "flag_reason" JVal.null =
      JVal.str ("Video scan error: " ++ "binascii.Error") :=
  ⟨((c7_video_never_raises envImage none (some "NOT64")).2 "binascii.Error" rfl).1,
   ((c7_video_never_raises envImage none (some "NOT64")).2 "binascii.Error" rfl).2.2.2.1⟩

/-- C8 (amended): whenever `text_model` is unset — which is what a
missing credential or a failed construction of the *text* model leaves
behind — every non-preflight request, well-formed or not and for any
environment, receives the 500 configuration error with an empty effect
list, so neither the oracle nor any scanner ever runs.  (The original
claim also covered a failed construction of the vision model alone,
which the code does not reject: see the counterexample.) -/
theorem c8_text_model_unset_500 (method : String) (env : Env)
    (body : Option ModerationRequest) (hm : (method == "OPTIONS") = false) :
    moderate_content method false env body =
      (⟨JVal.obj [("error", JVal.str "Configuration error: Models not initialized")],
        500⟩, []) ∧
    (initModels none (Except.ok ()) (Except.ok ())).1 = false ∧
    (∀ e mkv, (initModels (some "key") (Except.error e) mkv).1 = false) := by
  refine ⟨?_, rfl, fun e mkv => rfl⟩
  unfold moderate_content
  rw [if_neg (by simp [hm]), if_pos (by decide : (!false) = true)]

/-- C8 witness: with `text_model` unset, a well-formed text request gets
the 500 configuration error and nothing is called. -/
theorem c8_witness :
    moderate_content "POST" false envSafeText (some reqText) =
      (⟨JVal.obj [("error", JVal.str "Configuration error: Models not initialized")],
        500⟩, []) :=
  (c8_text_model_unset_500 "POST" envSafeText (some reqText) rfl).1

/-- An environment as left behind by a partial initialization: the text
oracle works, but the vision model is `None`, so any vision call raises. -/
def envVisionNone : Env :=
  { textGen := fun _ => Except.ok "\x7b\"is_safe\": true, \"flag_reason\": null\x7d"
  , visionGen := fun _ _ _ =>
      Except.error "AttributeError: NoneType object has no attribute generate_content"
  , httpGet := fun _ => Except.ok ⟨200, [255, 216]⟩
  , b64decode := fun _ => Except.ok [255, 216] }

/-- C8 counterexample: when the text model constructs but the vision
model's construction fails, the client is only partially initialized
(`initModels` reports the vision model unset), yet a well-formed image
request is *not* rejected with 500: only `text_model` is checked, so the
request is dispatched and fails open with HTTP 200. -/
theorem c8_counterexample :
    initModels (some "key") (Except.ok ()) (Except.error "construction failed") =
      (true, false) ∧
    (moderate_content "POST"
        (initModels (some "key") (Except.ok ()) (Except.error "construction failed")).1
        envVisionNone
        (some ⟨"", some "http://example.com/pic.jpg", none, "image"⟩)).1.status =
      200 :=
  ⟨rfl, rfl⟩

/-- Keys of a successful scan result (`[]` for a raised exception). -/
def okDictKeys : Except String (List (String × JVal)) → List String
  | Except.ok d => dictKeys d
  | Except.error _ => []

/-- Keys of a parsed JSON object (`[]` for anything else). -/
def objKeys : Option JVal → List String
  | some (JVal.obj kvs) => dictKeys kvs
  | _ => []

/-- C9 (amended): the image prompt instructs the oracle to emit a
`detected_minors` boolean, but the scanner does not copy it into its
output: every image scan that reaches the oracle and parses successfully
returns a verdict with exactly the four standard keys `is_safe`,
`moderation_status`, `flag_reason`, `model_used` — `detected_minors` is
not among them. -/
theorem c9_verdict_fields (env : Env) (bs : List Nat) (d : List (String × JVal))
    (h : (scanImageBytes env bs).1 = Except.ok d) :
    dictKeys d = ["is_safe", "moderation_status", "flag_reason", "model_used"] ∧
    ¬ "detected_minors" ∈ dictKeys d ∧
    containsSub imageScanPrompt "detected_minors" = true := by
  have hk : dictKeys d =
      ["is_safe", "moderation_status", "flag_reason", "model_used"] := by
    unfold scanImageBytes at h
    cases hg : env.visionGen imageScanPrompt "image/jpeg" bs with
    | error e => rw [hg] at h; exact Except.noConfusion h
    | ok t =>
      rw [hg] at h
      have h2 : normalizeVerdict VISION_MODEL t = Except.ok d := h
      unfold normalizeVerdict at h2
      cases hp : jsonParse (cleanResponse t) with
      | none => rw [hp] at h2; exact Except.noConfusion h2
      | some v =>
        rw [hp] at h2
        cases v with
        | obj kvs =>
          injection h2 with h3
          subst h3
          rfl
        | null => exact Except.noConfusion h2
        | bool b => exact Except.noConfusion h2
        | num n => exact Except.noConfusion h2
        | str s => exact Except.noConfusion h2
        | arr xs => exact Except.noConfusion h2
  refine ⟨hk, ?_, rfl⟩
  rw [hk]
  decide

/-- The oracle payload of an image scan that detects a minor. -/
def minorsPayload : String :=
  "\x7b\"is_safe\": false, \"flag_reason\": \"minor detected\", \"category\": \"age\", \"detected_minors\": true\x7d"

/-- An environment whose vision oracle reports `detected_minors: true`. -/
def envMinors : Env :=
  { textGen := fun _ => Except.error "unused"
  , visionGen := fun _ _ _ => Except.ok minorsPayload
  , httpGet := fun _ => Except.ok ⟨200, [1]⟩
  , b64decode := fun _ => Except.ok [1] }

/-- C9 counterexample: the oracle's payload carries a `detected_minors`
key, the scan succeeds, and yet the returned verdict's keys are exactly
the four standard fields — no `detected_minors` is included, contrary to
the claim. -/
theorem c9_counterexample :
    "detected_minors" ∈ objKeys (jsonParse (cleanResponse minorsPayload)) ∧
    okDictKeys (scanImageBytes envMinors [1]).1 =
      ["is_safe", "moderation_status", "flag_reason", "model_used"] ∧
    ¬ "detected_minors" ∈ okDictKeys (scanImageBytes envMinors [1]).1 := by
  refine ⟨by decide, rfl, by decide⟩

/-- C9 witness: the amended theorem at a concrete successful image scan. -/
theorem c9_witness :
    dictKeys (mkVerdict (JVal.bool false) (JVal.str "minor detected") VISION_MODEL) =
      ["is_safe", "moderation_status", "flag_reason", "model_used"] ∧
    containsSub imageScanPrompt "detected_minors" = true := by
  have h := c9_verdict_fields envMinors [1]
    (mkVerdict (JVal.bool false) (JVal.str "minor detected") VISION_MODEL) rfl
  exact ⟨h.1, h.2.2⟩
